import Mathlib

/-!
Verification of the malda-zk-coprocessor orchestration layer: the fixed-record
journal codec, the batch validation/flattening pipeline, and the test driver's
shape preconditions.  Bytes are modelled as `Nat` values (each byte < 256 where
it matters); byte strings are `List Nat`; fallible operations return `Except`.
-/

namespace Malda

/-- Total size in bytes of one fixed-layout journal record. -/
def ENTRY_SIZE : Nat := 113
def SENDER_OFFSET : Nat := 0
def SENDER_LENGTH : Nat := 20
def MARKET_OFFSET : Nat := 20
def MARKET_LENGTH : Nat := 20
def ACC_AMOUNT_IN_OFFSET : Nat := 40
def ACC_AMOUNT_IN_LENGTH : Nat := 32
def ACC_AMOUNT_OUT_OFFSET : Nat := 72
def ACC_AMOUNT_OUT_LENGTH : Nat := 32
def CHAIN_ID_OFFSET : Nat := 104
def CHAIN_ID_LENGTH : Nat := 4
def DST_CHAIN_ID_OFFSET : Nat := 108
def DST_CHAIN_ID_LENGTH : Nat := 4
def L1_INCLUSION_OFFSET : Nat := 112

/-- One decoded journal record (`JournalEntry` in the tests).
Addresses are 20-byte strings; the integer fields are the big-endian values
of the corresponding byte ranges. -/
structure JournalEntry where
  sender : List Nat
  market : List Nat
  acc_amount_in : Nat
  acc_amount_out : Nat
  chain_id : Nat
  dst_chain_id : Nat
  l1_inclusion : Bool
deriving Repr, DecidableEq

/-- Big-endian interpretation of a byte string (models `from_be_bytes` /
`U256::from_be_slice`). -/
def beNat (bs : List Nat) : Nat := bs.foldl (fun acc b => acc * 256 + b) 0

/-- `journal_data[off..off+len]` of the Rust source, for in-bounds slices. -/
def sliceAt (l : List Nat) (off len : Nat) : List Nat := (l.drop off).take len

/-- The fixed-record journal decoder, translated from the test suite's
`decode_journal`: reject length ≠ 113; read each field at its fixed offset;
reject a last byte other than 0 or 1. -/
def decode_journal (journal_data : List Nat) : Except String JournalEntry :=
  if journal_data.length ≠ ENTRY_SIZE then
    Except.error "Invalid journal data length"
  else
    let sender := sliceAt journal_data SENDER_OFFSET SENDER_LENGTH
    let market := sliceAt journal_data MARKET_OFFSET MARKET_LENGTH
    let acc_amount_in := beNat (sliceAt journal_data ACC_AMOUNT_IN_OFFSET ACC_AMOUNT_IN_LENGTH)
    let acc_amount_out := beNat (sliceAt journal_data ACC_AMOUNT_OUT_OFFSET ACC_AMOUNT_OUT_LENGTH)
    let chain_id := beNat (sliceAt journal_data CHAIN_ID_OFFSET CHAIN_ID_LENGTH)
    let dst_chain_id := beNat (sliceAt journal_data DST_CHAIN_ID_OFFSET DST_CHAIN_ID_LENGTH)
    let l1_inclusion_byte := journal_data.getD L1_INCLUSION_OFFSET 0
    if l1_inclusion_byte ≠ 0 ∧ l1_inclusion_byte ≠ 1 then
      Except.error "Invalid L1 inclusion value"
    else
      Except.ok
        { sender := sender
          market := market
          acc_amount_in := acc_amount_in
          acc_amount_out := acc_amount_out
          chain_id := chain_id
          dst_chain_id := dst_chain_id
          l1_inclusion := l1_inclusion_byte == 1 }

/-- Rust slice indexing `l[off..off+len]`: panics (here `none`) when out of bounds. -/
def slice? (l : List Nat) (off len : Nat) : Option (List Nat) :=
  if off + len ≤ l.length then some ((l.drop off).take len) else none

/-- Rust `try_into()` to a fixed-size array `[u8; n]`: fails unless the slice
has exactly length `n` (the `.unwrap()` panics on failure, here `none`). -/
def tryIntoArr (n : Nat) (bs : List Nat) : Option (List Nat) :=
  if bs.length = n then some bs else none

/-- `decode_journal` with every partial operation of the Rust source made
explicit: slice indexing returns `none` when out of bounds, the fixed-size
`try_into().unwrap()` conversions return `none` on a length mismatch, and the
single-byte index `journal_data[112]` returns `none` when out of bounds.
A `none` result marks a panic of the original code. -/
def decode_journal_checked (journal_data : List Nat) : Option (Except String JournalEntry) :=
  if journal_data.length ≠ ENTRY_SIZE then
    some (Except.error "Invalid journal data length")
  else do
    let sender_bytes ← slice? journal_data SENDER_OFFSET SENDER_LENGTH
    let market_bytes ← slice? journal_data MARKET_OFFSET MARKET_LENGTH
    let acc_in_bytes ← slice? journal_data ACC_AMOUNT_IN_OFFSET ACC_AMOUNT_IN_LENGTH
    let acc_in_arr ← tryIntoArr ACC_AMOUNT_IN_LENGTH acc_in_bytes
    let acc_out_bytes ← slice? journal_data ACC_AMOUNT_OUT_OFFSET ACC_AMOUNT_OUT_LENGTH
    let acc_out_arr ← tryIntoArr ACC_AMOUNT_OUT_LENGTH acc_out_bytes
    let chain_id_bytes ← slice? journal_data CHAIN_ID_OFFSET CHAIN_ID_LENGTH
    let chain_id_arr ← tryIntoArr CHAIN_ID_LENGTH chain_id_bytes
    let dst_bytes ← slice? journal_data DST_CHAIN_ID_OFFSET DST_CHAIN_ID_LENGTH
    let dst_arr ← tryIntoArr DST_CHAIN_ID_LENGTH dst_bytes
    let l1_inclusion_byte ← journal_data[L1_INCLUSION_OFFSET]?
    if l1_inclusion_byte ≠ 0 ∧ l1_inclusion_byte ≠ 1 then
      some (Except.error "Invalid L1 inclusion value")
    else
      some (Except.ok
        { sender := sender_bytes
          market := market_bytes
          acc_amount_in := beNat acc_in_arr
          acc_amount_out := beNat acc_out_arr
          chain_id := beNat chain_id_arr
          dst_chain_id := beNat dst_arr
          l1_inclusion := l1_inclusion_byte == 1 })

/-- Big-endian serialization of `v` into `n` bytes (models `to_be_bytes` of an
`n`-byte unsigned integer; the value is taken modulo `256 ^ n`). -/
def toBeBytes : Nat → Nat → List Nat
  | 0, _ => []
  | n + 1, v => toBeBytes n (v / 256) ++ [v % 256]

/-- Modelled from the spec: the fixed-record journal encoder (the guest-side
code that produces the journal bytes is not under src/): serialize one entry to
exactly 113 bytes, big-endian, no padding, in the layout
sender(20) ‖ market(20) ‖ acc_amount_in(32) ‖ acc_amount_out(32) ‖
chain_id(4) ‖ dst_chain_id(4) ‖ l1_inclusion(1, as 0 or 1). -/
def encode_journal (e : JournalEntry) : List Nat :=
  e.sender ++ e.market ++ toBeBytes 32 e.acc_amount_in ++ toBeBytes 32 e.acc_amount_out ++
    toBeBytes 4 e.chain_id ++ toBeBytes 4 e.dst_chain_id ++
    [if e.l1_inclusion then 1 else 0]

/-- A well-formed journal entry: 20-byte addresses and field values inside the
journal's integer widths. -/
def ValidEntry (e : JournalEntry) : Prop :=
  e.sender.length = 20 ∧ e.market.length = 20 ∧ e.acc_amount_in < 2 ^ 256 ∧
    e.acc_amount_out < 2 ^ 256 ∧ e.chain_id < 2 ^ 32 ∧ e.dst_chain_id < 2 ^ 32

/-- One flattened unit of proving work (`ProofObligation` in the spec):
one (user, asset, source chain, destination chain) plus the batch flag. -/
structure ProofObligation where
  sender : List Nat
  market : List Nat
  chain_id : Nat
  dst_chain_id : Nat
  l1_inclusion : Bool
deriving Repr, DecidableEq, Inhabited

/-- A valid obligation carries 20-byte addresses. -/
def ValidObligation (o : ProofObligation) : Prop :=
  o.sender.length = 20 ∧ o.market.length = 20

/-- Modelled from the spec: the journal entry produced for an obligation and
its computed accumulator values (the guest-side computation is not under
src/); the accumulators are 256-bit and the chain ids are stored as their
32-bit (low 32 bits) journal representation. -/
def entryOf (o : ProofObligation) (accIn accOut : Nat) : JournalEntry :=
  { sender := o.sender
    market := o.market
    acc_amount_in := accIn % 2 ^ 256
    acc_amount_out := accOut % 2 ^ 256
    chain_id := o.chain_id % 2 ^ 32
    dst_chain_id := o.dst_chain_id % 2 ^ 32
    l1_inclusion := o.l1_inclusion }

/-! Chain policy and batch validation. -/

/-- Modelled from the spec: chain identifier constants (the constant table
`malda_rs::constants` is not under src/); the values are the well-known
network ids of the chains the spec names. -/
def ETHEREUM_CHAIN_ID : Nat := 1
def OPTIMISM_CHAIN_ID : Nat := 10
def BASE_CHAIN_ID : Nat := 8453
def LINEA_CHAIN_ID : Nat := 59144
def ETHEREUM_SEPOLIA_CHAIN_ID : Nat := 11155111
def OPTIMISM_SEPOLIA_CHAIN_ID : Nat := 11155420
def BASE_SEPOLIA_CHAIN_ID : Nat := 84532
def LINEA_SEPOLIA_CHAIN_ID : Nat := 59141

/-- Modelled from the spec: the Chain Policy Registry (not under src/) — a
pure total lookup that is true only for the closed allow-list {Optimism, Base,
Linea} and their Sepolia counterparts. -/
def supports_l1_inclusion (chain_id : Nat) : Bool :=
  chain_id == OPTIMISM_CHAIN_ID || chain_id == BASE_CHAIN_ID || chain_id == LINEA_CHAIN_ID ||
    chain_id == OPTIMISM_SEPOLIA_CHAIN_ID || chain_id == BASE_SEPOLIA_CHAIN_ID ||
    chain_id == LINEA_SEPOLIA_CHAIN_ID

/-- One source chain's workload (`SourceChainGroup` in the spec). -/
structure SourceChainGroup where
  chain_id : Nat
  users : List (List Nat)
  assets : List (List Nat)
  dst_chain_ids : List Nat
deriving Repr, DecidableEq, Inhabited

/-- The caller-facing batch (`ProofBatchRequest` in the spec). -/
structure ProofBatchRequest where
  sources : List SourceChainGroup
  l1_inclusion : Bool
  fallback : Bool
deriving Repr, DecidableEq, Inhabited

/-- Validation failures of a batch. -/
inductive ValidationError where
  | lengthMismatch (field : String) (group_index : Nat)
  | unsupportedL1Inclusion (chain_id : Nat)
deriving Repr, DecidableEq

/-- Modelled from the spec: the user-facing message of each validation error;
the unsupported-L1-inclusion text is a cross-implementation contract matched
verbatim by callers and tests. -/
def ValidationError.message : ValidationError → String
  | .lengthMismatch f _ => "Length mismatch in group field " ++ f
  | .unsupportedL1Inclusion _ =>
      "L1 Inclusion only supported for Optimism, Base, Linea and their Sepolia variants"

/-- Modelled from the spec: batch validation (the `malda_rs` implementation is
not under src/): rules checked in order, first failure wins — (1) per-group
assets length, (2) per-group dst_chain_ids length, (3) for an
l1_inclusion batch, the chain allow-list. -/
def validate (b : ProofBatchRequest) : Except ValidationError Unit :=
  match b.sources.findIdx? (fun g => g.assets.length != g.users.length) with
  | some i => Except.error (ValidationError.lengthMismatch "assets" i)
  | none =>
    match b.sources.findIdx? (fun g => g.dst_chain_ids.length != g.users.length) with
    | some i => Except.error (ValidationError.lengthMismatch "dst_chain_ids" i)
    | none =>
      if b.l1_inclusion then
        match b.sources.find? (fun g => !supports_l1_inclusion g.chain_id) with
        | some g => Except.error (ValidationError.unsupportedL1Inclusion g.chain_id)
        | none => Except.ok ()
      else Except.ok ()

/-- Modelled from the spec: the obligation of group `g` at user index `i`. -/
def obligationAt (l1 : Bool) (g : SourceChainGroup) (i : Nat) : ProofObligation :=
  { sender := g.users.getD i []
    market := g.assets.getD i []
    chain_id := g.chain_id
    dst_chain_id := g.dst_chain_ids.getD i 0
    l1_inclusion := l1 }

/-- Modelled from the spec: flatten one group, users in index order. -/
def flattenGroup (l1 : Bool) (g : SourceChainGroup) : List ProofObligation :=
  (List.range g.users.length).map (obligationAt l1 g)

/-- Modelled from the spec: deterministic flattening — groups in `sources`
order (group-major), users in index order (index-minor), nothing dropped,
reordered or deduplicated. -/
def flatten (b : ProofBatchRequest) : List ProofObligation :=
  (b.sources.map (flattenGroup b.l1_inclusion)).flatten

/-- Modelled from the spec: the journal envelope produced by the proving
backend (not under src/) — one 113-byte encoded record per flattened
obligation, in flattening order.  The accumulator value at each position is
computed by the excluded execution collaborator and is opaque here, so it is
abstracted as a pair of arbitrary per-index functions. -/
def journalOf (b : ProofBatchRequest) (accIn accOut : Nat → Nat) : List (List Nat) :=
  (List.range (flatten b).length).map
    (fun i => encode_journal (entryOf ((flatten b).getD i default) (accIn i) (accOut i)))

/-- Modelled from the spec: `execute_local` validates, flattens, and only then
delegates the whole obligation sequence to the (opaque) execution backend; a
validation failure is returned before the backend is consulted. -/
def execute_local (b : ProofBatchRequest)
    (backend : List ProofObligation → List (List Nat)) :
    Except ValidationError (List (List Nat)) :=
  match validate b with
  | Except.error e => Except.error e
  | Except.ok _ => Except.ok (backend (flatten b))

/-- A shape-valid batch: per-group parallel lengths agree and every address is
20 bytes. -/
def ValidBatch (b : ProofBatchRequest) : Prop :=
  ∀ g ∈ b.sources, g.assets.length = g.users.length ∧
    g.dst_chain_ids.length = g.users.length ∧
    (∀ u ∈ g.users, u.length = 20) ∧ (∀ a ∈ g.assets, a.length = 20)

/-- The per-entry verification comparisons of the test driver (the five
`assert_eq!` at each flattened position): sender and market equality, the
chain ids compared against the low 32 bits (`as u32`) of the caller's 64-bit
values, and the batch-wide flag. -/
def entryMatches (entry : JournalEntry) (user asset : List Nat)
    (chain_id dst_chain_id : Nat) (l1 : Bool) : Bool :=
  entry.sender == user && entry.market == asset &&
    entry.chain_id == chain_id % 2 ^ 32 && entry.dst_chain_id == dst_chain_id % 2 ^ 32 &&
    entry.l1_inclusion == l1

/-- Outcome of the test driver: an assertion failure (a panic carrying the
assert message) or whatever the backend call produced. -/
inductive TestOutcome where
  | assertionFailure (msg : String)
  | backendOutcome (out : Except ValidationError (List (List Nat)))
deriving Repr

/-- The flat parallel-vector test driver `test_get_proof_data_with_params`,
translated from the test source: four outer-length assertions, then per-index
inner-length assertions, then the backend call on the assembled batch. -/
def test_get_proof_data_with_params (users assets : List (List (List Nat)))
    (dst_chain_ids : List (List Nat)) (chain_ids : List Nat)
    (l1_inclusion fallback : Bool)
    (backend : ProofBatchRequest → Except ValidationError (List (List Nat))) : TestOutcome :=
  if assets.length ≠ users.length then
    TestOutcome.assertionFailure "Assets vector length should match users vector length"
  else if dst_chain_ids.length ≠ users.length then
    TestOutcome.assertionFailure "Dst chain IDs vector length should match users vector length"
  else if chain_ids.length ≠ users.length then
    TestOutcome.assertionFailure "Chain IDs vector length should match users vector length"
  else
    match (List.range users.length).findSome? (fun i =>
      if (assets.getD i []).length ≠ (users.getD i []).length then
        some "Assets inner vector length should match users inner vector length"
      else if (dst_chain_ids.getD i []).length ≠ (users.getD i []).length then
        some "Dst chain IDs inner vector length should match users inner vector length"
      else none) with
    | some msg => TestOutcome.assertionFailure msg
    | none =>
      TestOutcome.backendOutcome (backend
        { sources := (List.range users.length).map (fun i =>
            { chain_id := chain_ids.getD i 0
              users := users.getD i []
              assets := assets.getD i []
              dst_chain_ids := dst_chain_ids.getD i [] })
          l1_inclusion := l1_inclusion
          fallback := fallback })

/-- A batch whose only group has an assets/users length mismatch together with
a non-allow-listed chain id and the l1_inclusion flag set. -/
def mismatchedL1Batch : ProofBatchRequest :=
  ⟨[⟨ETHEREUM_CHAIN_ID, [], [[]], [5]⟩], true, false⟩

/-- A shape-consistent single-group batch on Linea, used as concrete input. -/
def okBatch : ProofBatchRequest :=
  ⟨[⟨LINEA_CHAIN_ID, [List.replicate 20 1], [List.replicate 20 2], [OPTIMISM_CHAIN_ID]⟩],
    false, false⟩

/-- A shape-consistent two-group batch (sizes 2 and 1), used as concrete input. -/
def twoGroupBatch : ProofBatchRequest :=
  ⟨[⟨LINEA_CHAIN_ID, [List.replicate 20 1, List.replicate 20 3],
      [List.replicate 20 2, List.replicate 20 4], [OPTIMISM_CHAIN_ID, OPTIMISM_CHAIN_ID]⟩,
    ⟨BASE_CHAIN_ID, [List.replicate 20 5], [List.replicate 20 6], [LINEA_CHAIN_ID]⟩],
    false, false⟩

/-- A batch with consistent lengths (all empty) on a non-allow-listed chain
with the l1_inclusion flag set. -/
def ethereumL1Batch : ProofBatchRequest :=
  ⟨[⟨ETHEREUM_CHAIN_ID, [], [], []⟩], true, false⟩

/-! ## Theorems -/

/-- C8: the decoder is total — on every input the checked decoder reaches a
`Result` (never a panic, i.e. never `none`), and it agrees with
`decode_journal`: once the length-113 guard passes, every slice index is in
bounds and every fixed-width conversion succeeds. -/
theorem decode_journal_checked_total (l : List Nat) :
    decode_journal_checked l = some (decode_journal l) := by
  by_cases hlen : l.length = 113
  · have hbyte : l[112]? = some (l.getD 112 0) := by
      rw [List.getElem?_eq_getElem (by omega)]
      rw [List.getD_eq_getElem l 0 (by omega)]
    simp only [decode_journal_checked, decode_journal, slice?, tryIntoArr, sliceAt, hlen,
      ENTRY_SIZE, SENDER_OFFSET, SENDER_LENGTH, MARKET_OFFSET, MARKET_LENGTH,
      ACC_AMOUNT_IN_OFFSET, ACC_AMOUNT_IN_LENGTH, ACC_AMOUNT_OUT_OFFSET, ACC_AMOUNT_OUT_LENGTH,
      CHAIN_ID_OFFSET, CHAIN_ID_LENGTH, DST_CHAIN_ID_OFFSET, DST_CHAIN_ID_LENGTH,
      L1_INCLUSION_OFFSET, hbyte, List.length_take, List.length_drop]
    simp [hlen]
    split <;> rfl
  · simp [decode_journal_checked, decode_journal, ENTRY_SIZE, hlen]

/-- Shared helper: on a 113-byte input whose byte 112 is 0 or 1, `decode_journal`
succeeds and returns exactly the fields read at the fixed offsets. -/
theorem decode_journal_ok_eq (l : List Nat) (h : l.length = 113)
    (hb : l.getD 112 0 = 0 ∨ l.getD 112 0 = 1) :
    decode_journal l = Except.ok
      { sender := sliceAt l 0 20
        market := sliceAt l 20 20
        acc_amount_in := beNat (sliceAt l 40 32)
        acc_amount_out := beNat (sliceAt l 72 32)
        chain_id := beNat (sliceAt l 104 4)
        dst_chain_id := beNat (sliceAt l 108 4)
        l1_inclusion := l.getD 112 0 == 1 } := by
  have hb' : l.getD L1_INCLUSION_OFFSET 0 = 0 ∨ l.getD L1_INCLUSION_OFFSET 0 = 1 := by
    simpa [L1_INCLUSION_OFFSET] using hb
  unfold decode_journal
  rw [if_neg (by simp [ENTRY_SIZE, h])]
  rw [if_neg (by rcases hb' with h1 | h1 <;> rw [h1] <;> simp)]
  rfl

/-- C1: `decode_journal` succeeds iff its input has length 113 and its byte at
offset 112 is 0 or 1; equivalently it errors exactly on a wrong length or an
out-of-domain boolean byte, and every 113-byte input with last byte 0 or 1
decodes unconditionally. -/
theorem decode_journal_ok_iff (l : List Nat) :
    (∃ v, decode_journal l = Except.ok v) ↔
      (l.length = 113 ∧ (l.getD 112 0 = 0 ∨ l.getD 112 0 = 1)) := by
  constructor
  · rintro ⟨v, hv⟩
    unfold decode_journal at hv
    by_cases hlen : l.length = 113
    · by_cases hb : l.getD 112 0 = 0 ∨ l.getD 112 0 = 1
      · exact ⟨hlen, hb⟩
      · exfalso
        have hcond : l.getD L1_INCLUSION_OFFSET 0 ≠ 0 ∧ l.getD L1_INCLUSION_OFFSET 0 ≠ 1 := by
          push_neg at hb; simpa [L1_INCLUSION_OFFSET] using hb
        rw [if_neg (by simp [ENTRY_SIZE, hlen]), if_pos hcond] at hv
        exact absurd hv (by simp)
    · rw [if_pos (by simp [ENTRY_SIZE, hlen])] at hv
      exact absurd hv (by simp)
  · rintro ⟨h, hb⟩
    exact ⟨_, decode_journal_ok_eq l h hb⟩

/-- C2: on every 113-byte input whose byte at offset 112 is 0 or 1,
`decode_journal` returns the record whose fields are read at the fixed offsets
of the 113-byte layout: sender = bytes 0..20, market = bytes 20..40,
acc_amount_in = big-endian bytes 40..72, acc_amount_out = big-endian bytes
72..104, chain_id = big-endian bytes 104..108, dst_chain_id = big-endian bytes
108..112, and l1_inclusion is true exactly when byte 112 equals 1. -/
theorem decode_journal_fields (l : List Nat) (h : l.length = 113)
    (hb : l.getD 112 0 = 0 ∨ l.getD 112 0 = 1) :
    decode_journal l = Except.ok
      { sender := (l.drop 0).take 20
        market := (l.drop 20).take 20
        acc_amount_in := beNat ((l.drop 40).take 32)
        acc_amount_out := beNat ((l.drop 72).take 32)
        chain_id := beNat ((l.drop 104).take 4)
        dst_chain_id := beNat ((l.drop 108).take 4)
        l1_inclusion := l.getD 112 0 == 1 } :=
  decode_journal_ok_eq l h hb

/-- Witness for C2 at the all-zero 113-byte input. -/
theorem decode_journal_fields_witness :
    decode_journal (List.replicate 113 0) = Except.ok
      { sender := ((List.replicate 113 0).drop 0).take 20
        market := ((List.replicate 113 0).drop 20).take 20
        acc_amount_in := beNat (((List.replicate 113 0).drop 40).take 32)
        acc_amount_out := beNat (((List.replicate 113 0).drop 72).take 32)
        chain_id := beNat (((List.replicate 113 0).drop 104).take 4)
        dst_chain_id := beNat (((List.replicate 113 0).drop 108).take 4)
        l1_inclusion := (List.replicate 113 0).getD 112 0 == 1 } :=
  decode_journal_fields (List.replicate 113 0) (by decide) (by decide)

theorem length_toBeBytes (n v : Nat) : (toBeBytes n v).length = n := by
  induction n generalizing v with
  | zero => rfl
  | succ n ih => simp [toBeBytes, ih]

theorem beNat_append_singleton (xs : List Nat) (b : Nat) :
    beNat (xs ++ [b]) = beNat xs * 256 + b := by
  rw [beNat, List.foldl_append]; rfl

theorem beNat_toBeBytes (n v : Nat) : beNat (toBeBytes n v) = v % 256 ^ n := by
  induction n generalizing v with
  | zero => simp [toBeBytes, beNat, Nat.mod_one]
  | succ n ih =>
    rw [toBeBytes, beNat_append_singleton, ih, pow_succ', Nat.mod_mul]
    generalize v / 256 % 256 ^ n = a
    generalize v % 256 = b
    omega

theorem length_encode_journal (e : JournalEntry) (hs : e.sender.length = 20)
    (hm : e.market.length = 20) : (encode_journal e).length = 113 := by
  simp [encode_journal, hs, hm, length_toBeBytes]

/-- Shared helper: decoding an encoded well-formed entry recovers the entry. -/
theorem decode_encode_eq (e : JournalEntry) (hv : ValidEntry e) :
    decode_journal (encode_journal e) = Except.ok e := by
  obtain ⟨s, m, a, b, c, d, f⟩ := e
  obtain ⟨hs, hm, hai, hao, hc, hd⟩ := hv
  replace hs : s.length = 20 := hs
  replace hm : m.length = 20 := hm
  replace hai : a < 2 ^ 256 := hai
  replace hao : b < 2 ^ 256 := hao
  replace hc : c < 2 ^ 32 := hc
  replace hd : d < 2 ^ 32 := hd
  have hl : encode_journal ⟨s, m, a, b, c, d, f⟩ =
      s ++ (m ++ (toBeBytes 32 a ++ (toBeBytes 32 b ++
        (toBeBytes 4 c ++ (toBeBytes 4 d ++ [if f then 1 else 0]))))) := by
    simp [encode_journal, List.append_assoc]
  have hslice0 : sliceAt (encode_journal ⟨s, m, a, b, c, d, f⟩) 0 20 = s := by
    rw [sliceAt, List.drop_zero, hl, List.take_left' hs]
  have hslice20 : sliceAt (encode_journal ⟨s, m, a, b, c, d, f⟩) 20 20 = m := by
    rw [sliceAt, hl, List.drop_left' hs, List.take_left' hm]
  have hl40 : encode_journal ⟨s, m, a, b, c, d, f⟩ =
      (s ++ m) ++ (toBeBytes 32 a ++ (toBeBytes 32 b ++
        (toBeBytes 4 c ++ (toBeBytes 4 d ++ [if f then 1 else 0])))) := by
    rw [hl]; simp [List.append_assoc]
  have hslice40 : sliceAt (encode_journal ⟨s, m, a, b, c, d, f⟩) 40 32 = toBeBytes 32 a := by
    rw [sliceAt, hl40, List.drop_left' (by simp [hs, hm]),
      List.take_left' (length_toBeBytes 32 _)]
  have hl72 : encode_journal ⟨s, m, a, b, c, d, f⟩ =
      (s ++ m ++ toBeBytes 32 a) ++ (toBeBytes 32 b ++
        (toBeBytes 4 c ++ (toBeBytes 4 d ++ [if f then 1 else 0]))) := by
    rw [hl]; simp [List.append_assoc]
  have hslice72 : sliceAt (encode_journal ⟨s, m, a, b, c, d, f⟩) 72 32 = toBeBytes 32 b := by
    rw [sliceAt, hl72, List.drop_left' (by simp [hs, hm, length_toBeBytes]),
      List.take_left' (length_toBeBytes 32 _)]
  have hl104 : encode_journal ⟨s, m, a, b, c, d, f⟩ =
      (s ++ m ++ toBeBytes 32 a ++ toBeBytes 32 b) ++
        (toBeBytes 4 c ++ (toBeBytes 4 d ++ [if f then 1 else 0])) := by
    rw [hl]; simp [List.append_assoc]
  have hslice104 : sliceAt (encode_journal ⟨s, m, a, b, c, d, f⟩) 104 4 = toBeBytes 4 c := by
    rw [sliceAt, hl104, List.drop_left' (by simp [hs, hm, length_toBeBytes]),
      List.take_left' (length_toBeBytes 4 _)]
  have hl108 : encode_journal ⟨s, m, a, b, c, d, f⟩ =
      (s ++ m ++ toBeBytes 32 a ++ toBeBytes 32 b ++ toBeBytes 4 c) ++
        (toBeBytes 4 d ++ [if f then 1 else 0]) := by
    rw [hl]; simp [List.append_assoc]
  have hslice108 : sliceAt (encode_journal ⟨s, m, a, b, c, d, f⟩) 108 4 = toBeBytes 4 d := by
    rw [sliceAt, hl108, List.drop_left' (by simp [hs, hm, length_toBeBytes]),
      List.take_left' (length_toBeBytes 4 _)]
  have hl112 : encode_journal ⟨s, m, a, b, c, d, f⟩ =
      (s ++ m ++ toBeBytes 32 a ++ toBeBytes 32 b ++ toBeBytes 4 c ++ toBeBytes 4 d) ++
        [if f then 1 else 0] := by
    rw [hl]; simp [List.append_assoc]
  have hpre112 : (s ++ m ++ toBeBytes 32 a ++ toBeBytes 32 b ++ toBeBytes 4 c ++
      toBeBytes 4 d).length = 112 := by
    simp [hs, hm, length_toBeBytes]
  have hbyte : (encode_journal ⟨s, m, a, b, c, d, f⟩).getD 112 0 = if f then 1 else 0 := by
    rw [List.getD_eq_getElem?_getD, hl112, List.getElem?_append_right (by rw [hpre112]),
      hpre112]
    rfl
  have hbt : (encode_journal ⟨s, m, a, b, c, d, f⟩).getD 112 0 = 0 ∨
      (encode_journal ⟨s, m, a, b, c, d, f⟩).getD 112 0 = 1 := by
    rw [hbyte]; rcases f <;> simp
  rw [decode_journal_ok_eq _ (length_encode_journal ⟨s, m, a, b, c, d, f⟩ hs hm) hbt,
    hslice0, hslice20, hslice40, hslice72, hslice104, hslice108, hbyte]
  have h256 : (256 : Nat) ^ 32 = 2 ^ 256 := by norm_num
  have h232 : (256 : Nat) ^ 4 = 2 ^ 32 := by norm_num
  simp only [beNat_toBeBytes, h256, h232]
  rw [Nat.mod_eq_of_lt hai, Nat.mod_eq_of_lt hao, Nat.mod_eq_of_lt hc, Nat.mod_eq_of_lt hd]
  rcases f <;> rfl

/-- Shared helper: the entry of a valid obligation always round-trips. -/
theorem decode_encode_entryOf (o : ProofObligation) (hv : ValidObligation o)
    (accIn accOut : Nat) :
    decode_journal (encode_journal (entryOf o accIn accOut)) =
      Except.ok (entryOf o accIn accOut) :=
  decode_encode_eq _ ⟨hv.1, hv.2, Nat.mod_lt _ (by norm_num), Nat.mod_lt _ (by norm_num),
    Nat.mod_lt _ (by norm_num), Nat.mod_lt _ (by norm_num)⟩

/-- C3: round-trip — for every valid obligation and every pair of accumulator
values, encoding the resulting journal entry to its 113-byte fixed-record form
and decoding it with `decode_journal` yields the original entry. -/
theorem decode_encode_roundtrip (o : ProofObligation) (hv : ValidObligation o)
    (accIn accOut : Nat) :
    decode_journal (encode_journal (entryOf o accIn accOut)) =
      Except.ok (entryOf o accIn accOut) :=
  decode_encode_entryOf o hv accIn accOut

/-- Witness for C3 at a concrete obligation and accumulator pair. -/
theorem decode_encode_roundtrip_witness :
    decode_journal (encode_journal
        (entryOf ⟨List.replicate 20 7, List.replicate 20 9, 10, 59144, true⟩ 5 6)) =
      Except.ok (entryOf ⟨List.replicate 20 7, List.replicate 20 9, 10, 59144, true⟩ 5 6) :=
  decode_encode_roundtrip ⟨List.replicate 20 7, List.replicate 20 9, 10, 59144, true⟩
    (by constructor <;> simp) 5 6

/-! ## List index helpers -/

theorem getD_append_left {α : Type} {l₁ l₂ : List α} {n : Nat} (d : α) (h : n < l₁.length) :
    (l₁ ++ l₂).getD n d = l₁.getD n d := by
  rw [List.getD_eq_getElem?_getD, List.getElem?_append_left h, ← List.getD_eq_getElem?_getD]

theorem getD_append_right {α : Type} {l₁ l₂ : List α} {n : Nat} (d : α) (h : l₁.length ≤ n) :
    (l₁ ++ l₂).getD n d = l₂.getD (n - l₁.length) d := by
  rw [List.getD_eq_getElem?_getD, List.getElem?_append_right h, ← List.getD_eq_getElem?_getD]

theorem getD_range_map {α : Type} (f : Nat → α) {n j : Nat} (d : α) (h : j < n) :
    ((List.range n).map f).getD j d = f j := by
  rw [List.getD_eq_getElem?_getD, List.getElem?_map, List.getElem?_range h]
  rfl

theorem getD_mem {α : Type} {l : List α} {n : Nat} (d : α) (h : n < l.length) :
    l.getD n d ∈ l := by
  rw [List.getD_eq_getElem l d h]
  exact List.getElem_mem h

/-! ## Flattening -/

theorem length_flattenGroup (l1 : Bool) (g : SourceChainGroup) :
    (flattenGroup l1 g).length = g.users.length := by
  simp [flattenGroup]

theorem length_flatten (b : ProofBatchRequest) :
    (flatten b).length = (b.sources.map (fun g => g.users.length)).sum := by
  simp [flatten, List.length_flatten, List.map_map, Function.comp_def, length_flattenGroup]

theorem flatten_sources_getD (l1 : Bool) :
    ∀ (srcs : List SourceChainGroup) (gi j : Nat), gi < srcs.length →
      j < (srcs.getD gi default).users.length →
      ((srcs.map (flattenGroup l1)).flatten).getD
          (((srcs.take gi).map (fun g => g.users.length)).sum + j) default =
        obligationAt l1 (srcs.getD gi default) j := by
  intro srcs
  induction srcs with
  | nil => intro gi j hg _; exact absurd hg (by simp)
  | cons hd tl ih =>
    intro gi j hg hj
    cases gi with
    | zero =>
      have hj0 : j < hd.users.length := by simpa using hj
      simp only [List.take_zero, List.map_nil, List.sum_nil, Nat.zero_add, List.map_cons,
        List.flatten_cons]
      rw [getD_append_left _ (by rw [length_flattenGroup]; exact hj0)]
      rw [flattenGroup, getD_range_map _ _ hj0]
      simp
    | succ gi' =>
      have hg' : gi' < tl.length := by simpa using hg
      have hj' : j < (tl.getD gi' default).users.length := by simpa using hj
      simp only [List.take_succ_cons, List.map_cons, List.sum_cons, List.flatten_cons]
      rw [Nat.add_assoc, getD_append_right _ (by rw [length_flattenGroup]; omega)]
      rw [length_flattenGroup, Nat.add_sub_cancel_left]
      simpa using ih gi' j hg' hj'

theorem sum_take_add_lt (srcs : List SourceChainGroup) :
    ∀ (gi j : Nat), gi < srcs.length → j < (srcs.getD gi default).users.length →
      ((srcs.take gi).map (fun g => g.users.length)).sum + j <
        (srcs.map (fun g => g.users.length)).sum := by
  induction srcs with
  | nil => intro gi j hg _; exact absurd hg (by simp)
  | cons hd tl ih =>
    intro gi j hg hj
    cases gi with
    | zero =>
      have hj0 : j < hd.users.length := by simpa using hj
      simp only [List.take_zero, List.map_nil, List.sum_nil, Nat.zero_add, List.map_cons,
        List.sum_cons]
      have : 0 ≤ ((tl.map (fun g => g.users.length)).sum) := Nat.zero_le _
      omega
    | succ gi' =>
      have hg' : gi' < tl.length := by simpa using hg
      have hj' : j < (tl.getD gi' default).users.length := by simpa using hj
      have := ih gi' j hg' hj'
      simp only [List.take_succ_cons, List.map_cons, List.sum_cons]
      omega

/-- C4: positional correspondence — the flattened obligation sequence
enumerates source groups in order (group-major) and users in index order
(index-minor), with nothing dropped, reordered or deduplicated: its length is
the total user count and the obligation at flat position
(users of earlier groups).sum + j is exactly group gi's obligation j; and the
decoded journal entry at that flat position agrees with that obligation on
sender, market, chain_id and dst_chain_id (at journal width) and the
batch-wide l1_inclusion flag. -/
theorem flatten_positional (b : ProofBatchRequest) (hvb : ValidBatch b)
    (accIn accOut : Nat → Nat) (gi j : Nat) (hg : gi < b.sources.length)
    (hj : j < (b.sources.getD gi default).users.length) :
    (flatten b).length = (b.sources.map (fun g => g.users.length)).sum ∧
    (flatten b).getD (((b.sources.take gi).map (fun g => g.users.length)).sum + j) default =
      obligationAt b.l1_inclusion (b.sources.getD gi default) j ∧
    ∃ e, decode_journal ((journalOf b accIn accOut).getD
          (((b.sources.take gi).map (fun g => g.users.length)).sum + j) []) = Except.ok e ∧
      e.sender = (b.sources.getD gi default).users.getD j [] ∧
      e.market = (b.sources.getD gi default).assets.getD j [] ∧
      e.chain_id = (b.sources.getD gi default).chain_id % 2 ^ 32 ∧
      e.dst_chain_id = (b.sources.getD gi default).dst_chain_ids.getD j 0 % 2 ^ 32 ∧
      e.l1_inclusion = b.l1_inclusion := by
  have hpos : (flatten b).getD
      (((b.sources.take gi).map (fun g => g.users.length)).sum + j) default =
      obligationAt b.l1_inclusion (b.sources.getD gi default) j :=
    flatten_sources_getD b.l1_inclusion b.sources gi j hg hj
  refine ⟨length_flatten b, hpos, ?_⟩
  have hidx := sum_take_add_lt b.sources gi j hg hj
  have hklt : ((b.sources.take gi).map (fun g => g.users.length)).sum + j <
      (flatten b).length := by
    rw [length_flatten]; exact hidx
  have hjor : (journalOf b accIn accOut).getD
      (((b.sources.take gi).map (fun g => g.users.length)).sum + j) [] =
      encode_journal (entryOf
        (obligationAt b.l1_inclusion (b.sources.getD gi default) j)
        (accIn (((b.sources.take gi).map (fun g => g.users.length)).sum + j))
        (accOut (((b.sources.take gi).map (fun g => g.users.length)).sum + j))) := by
    rw [journalOf, getD_range_map _ _ hklt, hpos]
  obtain ⟨ha, _, hu, has⟩ := hvb _ (getD_mem default hg)
  have hjA : j < (b.sources.getD gi default).assets.length := by rw [ha]; exact hj
  have hvo : ValidObligation (obligationAt b.l1_inclusion (b.sources.getD gi default) j) :=
    ⟨hu _ (getD_mem [] hj), has _ (getD_mem [] hjA)⟩
  exact ⟨_, by rw [hjor]; exact decode_encode_entryOf _ hvo _ _, rfl, rfl, rfl, rfl, rfl⟩

/-- Witness for C4 on the two-group batch at group 1, user 0. -/
theorem flatten_positional_witness :
    (flatten twoGroupBatch).length =
      (twoGroupBatch.sources.map (fun g => g.users.length)).sum ∧
    (flatten twoGroupBatch).getD
        (((twoGroupBatch.sources.take 1).map (fun g => g.users.length)).sum + 0) default =
      obligationAt twoGroupBatch.l1_inclusion (twoGroupBatch.sources.getD 1 default) 0 ∧
    ∃ e, decode_journal ((journalOf twoGroupBatch (fun _ => 3) (fun _ => 4)).getD
          (((twoGroupBatch.sources.take 1).map (fun g => g.users.length)).sum + 0) []) =
        Except.ok e ∧
      e.sender = (twoGroupBatch.sources.getD 1 default).users.getD 0 [] ∧
      e.market = (twoGroupBatch.sources.getD 1 default).assets.getD 0 [] ∧
      e.chain_id = (twoGroupBatch.sources.getD 1 default).chain_id % 2 ^ 32 ∧
      e.dst_chain_id = (twoGroupBatch.sources.getD 1 default).dst_chain_ids.getD 0 0 % 2 ^ 32 ∧
      e.l1_inclusion = twoGroupBatch.l1_inclusion :=
  flatten_positional twoGroupBatch (by unfold ValidBatch; decide) (fun _ => 3) (fun _ => 4) 1 0
    (by decide) (by decide)

/-- C5: entry-count invariant — for every batch accepted by validation, the
journal envelope holds exactly one byte-string per obligation: its element
count is the sum over all source groups of that group's users-sequence
length. -/
theorem journal_entry_count (b : ProofBatchRequest) (hv : validate b = Except.ok ())
    (accIn accOut : Nat → Nat) :
    (journalOf b accIn accOut).length = (b.sources.map (fun g => g.users.length)).sum := by
  simp [journalOf, length_flatten]

/-- Witness for C5 on the Linea single-group batch. -/
theorem journal_entry_count_witness :
    (journalOf okBatch (fun _ => 0) (fun _ => 0)).length =
      (okBatch.sources.map (fun g => g.users.length)).sum :=
  journal_entry_count okBatch rfl (fun _ => 0) (fun _ => 0)

/-! ## Validation: chain policy and ordering -/

/-- C6 counterexample: a batch with `l1_inclusion = true` and a group on a
non-allow-listed chain (Ethereum) for which validation fails with a length
mismatch error, not with the L1-inclusion message — the claim's "fails with
exactly the message ..." does not hold for every such batch, because the
length checks run first. -/
theorem l1_policy_counterexample :
    mismatchedL1Batch.l1_inclusion = true ∧
    (∃ g ∈ mismatchedL1Batch.sources, supports_l1_inclusion g.chain_id = false) ∧
    (∃ e, validate mismatchedL1Batch = Except.error e ∧
      e.message ≠
        "L1 Inclusion only supported for Optimism, Base, Linea and their Sepolia variants") := by
  refine ⟨rfl, ⟨⟨ETHEREUM_CHAIN_ID, [], [[]], [5]⟩, by decide, by decide⟩,
    ⟨ValidationError.lengthMismatch "assets" 0, rfl, by decide⟩⟩

/-- C6 (amended): for every batch with `l1_inclusion = true` whose groups all
pass the length checks, validation fails with exactly the message "L1 Inclusion
only supported for Optimism, Base, Linea and their Sepolia variants" when some
group's chain id is outside the allow-list; when every group's chain id is
allow-listed, validation succeeds and proving proceeds: `execute_local` invokes
the backend on the flattened batch and returns its output. -/
theorem l1_policy (b : ProofBatchRequest) (hl1 : b.l1_inclusion = true)
    (hlen : ∀ g ∈ b.sources, g.assets.length = g.users.length ∧
      g.dst_chain_ids.length = g.users.length) :
    ((∃ g ∈ b.sources, supports_l1_inclusion g.chain_id = false) →
      ∃ e, validate b = Except.error e ∧
        e.message =
          "L1 Inclusion only supported for Optimism, Base, Linea and their Sepolia variants") ∧
    ((∀ g ∈ b.sources, supports_l1_inclusion g.chain_id = true) →
      validate b = Except.ok () ∧
      ∀ bk, execute_local b bk = Except.ok (bk (flatten b))) := by
  have h1 : b.sources.findIdx? (fun g => g.assets.length != g.users.length) = none := by
    rw [List.findIdx?_eq_none_iff]
    intro g hg; simpa using (hlen g hg).1
  have h2 : b.sources.findIdx? (fun g => g.dst_chain_ids.length != g.users.length) = none := by
    rw [List.findIdx?_eq_none_iff]
    intro g hg; simpa using (hlen g hg).2
  constructor
  · rintro ⟨g, hg, hgf⟩
    obtain ⟨g', hfind⟩ : ∃ g',
        b.sources.find? (fun x => !supports_l1_inclusion x.chain_id) = some g' := by
      rcases hfs : b.sources.find? (fun x => !supports_l1_inclusion x.chain_id) with _ | g'
      · rw [List.find?_eq_none] at hfs
        exact absurd (by simp [hgf] : (!supports_l1_inclusion g.chain_id) = true) (hfs g hg)
      · exact ⟨g', hfs⟩
    refine ⟨ValidationError.unsupportedL1Inclusion g'.chain_id, ?_, rfl⟩
    unfold validate
    rw [h1, h2]
    simp [hl1, hfind]
  · intro hall
    have h3 : b.sources.find? (fun x => !supports_l1_inclusion x.chain_id) = none := by
      rw [List.find?_eq_none]
      intro x hx; simp [hall x hx]
    have hok : validate b = Except.ok () := by
      unfold validate
      rw [h1, h2]
      simp [hl1, h3]
    refine ⟨hok, fun bk => ?_⟩
    unfold execute_local
    rw [hok]

/-- Witness for the amended C6: on the length-consistent Ethereum batch the
error carries exactly the contractual message, and on the Linea batch with the
flag set validation succeeds and the backend is invoked on the flattened
batch. -/
theorem l1_policy_witness :
    (∃ e, validate ethereumL1Batch = Except.error e ∧
      e.message =
        "L1 Inclusion only supported for Optimism, Base, Linea and their Sepolia variants") ∧
    (validate { okBatch with l1_inclusion := true } = Except.ok () ∧
      ∀ bk, execute_local { okBatch with l1_inclusion := true } bk =
        Except.ok (bk (flatten { okBatch with l1_inclusion := true }))) :=
  ⟨(l1_policy ethereumL1Batch rfl (by decide)).1
      ⟨⟨ETHEREUM_CHAIN_ID, [], [], []⟩, by decide, by decide⟩,
    (l1_policy { okBatch with l1_inclusion := true } rfl (by decide)).2 (by decide)⟩

/-- C7: validation order and fail-fast — the first failure wins in the fixed
order (per-group assets length, then per-group dst_chain_ids length, then the
chain allow-list, the latter only when l1_inclusion is set), and every
validation failure is returned by `execute_local` identically for every
backend, i.e. strictly before any proving backend is invoked. -/
theorem validate_order_fail_fast (b : ProofBatchRequest) :
    ((∃ g ∈ b.sources, g.assets.length ≠ g.users.length) →
      ∃ i, validate b = Except.error (ValidationError.lengthMismatch "assets" i)) ∧
    ((∀ g ∈ b.sources, g.assets.length = g.users.length) →
      (∃ g ∈ b.sources, g.dst_chain_ids.length ≠ g.users.length) →
      ∃ i, validate b = Except.error (ValidationError.lengthMismatch "dst_chain_ids" i)) ∧
    ((∀ g ∈ b.sources, g.assets.length = g.users.length ∧
        g.dst_chain_ids.length = g.users.length) →
      b.l1_inclusion = true →
      (∃ g ∈ b.sources, supports_l1_inclusion g.chain_id = false) →
      ∃ c, validate b = Except.error (ValidationError.unsupportedL1Inclusion c)) ∧
    (∀ e, validate b = Except.error e → ∀ bk bk',
      execute_local b bk = Except.error e ∧ execute_local b bk = execute_local b bk') := by
  refine ⟨?_, ?_, ?_, ?_⟩
  · rintro ⟨g, hg, hgf⟩
    obtain ⟨i, hfind⟩ : ∃ i,
        b.sources.findIdx? (fun x => x.assets.length != x.users.length) = some i := by
      rcases hfs : b.sources.findIdx? (fun x => x.assets.length != x.users.length) with _ | i
      · rw [List.findIdx?_eq_none_iff] at hfs
        exact absurd (hfs g hg) (by simpa using hgf)
      · exact ⟨i, hfs⟩
    refine ⟨i, ?_⟩
    unfold validate
    rw [hfind]
  · intro hall ⟨g, hg, hgf⟩
    have h1 : b.sources.findIdx? (fun x => x.assets.length != x.users.length) = none := by
      rw [List.findIdx?_eq_none_iff]
      intro x hx; simpa using hall x hx
    obtain ⟨i, hfind⟩ : ∃ i,
        b.sources.findIdx? (fun x => x.dst_chain_ids.length != x.users.length) = some i := by
      rcases hfs : b.sources.findIdx? (fun x => x.dst_chain_ids.length != x.users.length)
        with _ | i
      · rw [List.findIdx?_eq_none_iff] at hfs
        exact absurd (hfs g hg) (by simpa using hgf)
      · exact ⟨i, hfs⟩
    refine ⟨i, ?_⟩
    unfold validate
    rw [h1, hfind]
  · intro hall hl1 ⟨g, hg, hgf⟩
    have h1 : b.sources.findIdx? (fun x => x.assets.length != x.users.length) = none := by
      rw [List.findIdx?_eq_none_iff]
      intro x hx; simpa using (hall x hx).1
    have h2 : b.sources.findIdx? (fun x => x.dst_chain_ids.length != x.users.length) = none := by
      rw [List.findIdx?_eq_none_iff]
      intro x hx; simpa using (hall x hx).2
    obtain ⟨g', hfind⟩ : ∃ g',
        b.sources.find? (fun x => !supports_l1_inclusion x.chain_id) = some g' := by
      rcases hfs : b.sources.find? (fun x => !supports_l1_inclusion x.chain_id) with _ | g'
      · rw [List.find?_eq_none] at hfs
        exact absurd (by simp [hgf] : (!supports_l1_inclusion g.chain_id) = true) (hfs g hg)
      · exact ⟨g', hfs⟩
    refine ⟨g'.chain_id, ?_⟩
    unfold validate
    rw [h1, h2]
    simp [hl1, hfind]
  · intro e he bk bk'
    unfold execute_local
    rw [he]
    exact ⟨rfl, rfl⟩

/-- Witness for C7 on a batch violating all three rules at once: the assets
length mismatch wins, and `execute_local` reports it for every backend. -/
theorem validate_order_fail_fast_witness :
    ∃ i, validate mismatchedL1Batch =
        Except.error (ValidationError.lengthMismatch "assets" i) ∧
      ∀ bk, execute_local mismatchedL1Batch bk =
        Except.error (ValidationError.lengthMismatch "assets" i) := by
  obtain ⟨i, hi⟩ := (validate_order_fail_fast mismatchedL1Batch).1
    ⟨⟨ETHEREUM_CHAIN_ID, [], [[]], [5]⟩, by decide, by decide⟩
  exact ⟨i, hi, fun bk =>
    ((validate_order_fail_fast mismatchedL1Batch).2.2.2 _ hi bk bk).1⟩

/-! ## Chain-id width truncation and the test driver's shape preconditions -/

/-- C9: chain-id width truncation — the journal stores each chain id at 32-bit
width: the decoded entry's chain ids equal the input values modulo `2 ^ 32`;
the verification comparison (`entryMatches`, the test's `as u32` asserts)
cannot distinguish inputs congruent modulo `2 ^ 32`; and two obligations whose
chain ids are congruent modulo `2 ^ 32` produce identical journal bytes. -/
theorem chain_id_truncation (o : ProofObligation) (hv : ValidObligation o)
    (accIn accOut : Nat) (c' d' : Nat) (hc : o.chain_id % 2 ^ 32 = c' % 2 ^ 32)
    (hd : o.dst_chain_id % 2 ^ 32 = d' % 2 ^ 32) :
    (∃ e, decode_journal (encode_journal (entryOf o accIn accOut)) = Except.ok e ∧
        e.chain_id = o.chain_id % 2 ^ 32 ∧ e.dst_chain_id = o.dst_chain_id % 2 ^ 32) ∧
    encode_journal (entryOf o accIn accOut) =
      encode_journal (entryOf { o with chain_id := c', dst_chain_id := d' } accIn accOut) ∧
    (∀ e : JournalEntry,
      entryMatches e o.sender o.market o.chain_id o.dst_chain_id o.l1_inclusion =
        entryMatches e o.sender o.market c' d' o.l1_inclusion) := by
  refine ⟨⟨entryOf o accIn accOut, decode_encode_entryOf o hv accIn accOut, rfl, rfl⟩, ?_, ?_⟩
  · have he : entryOf o accIn accOut =
        entryOf { o with chain_id := c', dst_chain_id := d' } accIn accOut := by
      unfold entryOf
      simp only [JournalEntry.mk.injEq, and_true, true_and]
      exact ⟨hc, hd⟩
    rw [he]
  · intro e
    unfold entryMatches
    rw [hc, hd]

/-- Witness for C9 at chain ids `2^32 + 7 ≡ 7` and `3 * 2^32 + 9 ≡ 9`. -/
theorem chain_id_truncation_witness :
    (∃ e, decode_journal (encode_journal
          (entryOf ⟨List.replicate 20 1, List.replicate 20 2, 2 ^ 32 + 7, 3 * 2 ^ 32 + 9, false⟩
            11 12)) = Except.ok e ∧
        e.chain_id = (2 ^ 32 + 7) % 2 ^ 32 ∧ e.dst_chain_id = (3 * 2 ^ 32 + 9) % 2 ^ 32) ∧
    encode_journal
        (entryOf ⟨List.replicate 20 1, List.replicate 20 2, 2 ^ 32 + 7, 3 * 2 ^ 32 + 9, false⟩
          11 12) =
      encode_journal (entryOf ⟨List.replicate 20 1, List.replicate 20 2, 7, 9, false⟩ 11 12) ∧
    (∀ e : JournalEntry,
      entryMatches e (List.replicate 20 1) (List.replicate 20 2) (2 ^ 32 + 7) (3 * 2 ^ 32 + 9)
          false =
        entryMatches e (List.replicate 20 1) (List.replicate 20 2) 7 9 false) :=
  chain_id_truncation ⟨List.replicate 20 1, List.replicate 20 2, 2 ^ 32 + 7, 3 * 2 ^ 32 + 9,
      false⟩
    (by constructor <;> simp) 11 12 7 9 (by decide) (by decide)

/-- C10: outer-shape precondition of the flat parallel-vector test driver —
whenever the four outer sequences do not all share one length, the driver
aborts with an assertion failure (a panic, not a `ValidationError` value), and
the outcome is the same for every backend, i.e. no proving work happens. -/
theorem outer_shape_assert (users assets : List (List (List Nat)))
    (dst_chain_ids : List (List Nat)) (chain_ids : List Nat) (l1 fb : Bool)
    (h : assets.length ≠ users.length ∨ dst_chain_ids.length ≠ users.length ∨
      chain_ids.length ≠ users.length) :
    ∃ msg, ∀ backend backend',
      test_get_proof_data_with_params users assets dst_chain_ids chain_ids l1 fb backend =
        TestOutcome.assertionFailure msg ∧
      test_get_proof_data_with_params users assets dst_chain_ids chain_ids l1 fb backend =
        test_get_proof_data_with_params users assets dst_chain_ids chain_ids l1 fb backend' := by
  unfold test_get_proof_data_with_params
  by_cases h1 : assets.length = users.length
  · by_cases h2 : dst_chain_ids.length = users.length
    · have h3 : chain_ids.length ≠ users.length := by tauto
      exact ⟨"Chain IDs vector length should match users vector length",
        fun bk bk' => by simp [h1, h2, h3]⟩
    · exact ⟨"Dst chain IDs vector length should match users vector length",
        fun bk bk' => by simp [h1, h2]⟩
  · exact ⟨"Assets vector length should match users vector length",
      fun bk bk' => by simp [h1]⟩

/-- Witness for C10: one outer chain-ids vector too short aborts the driver
with an assertion failure for every backend. -/
theorem outer_shape_assert_witness :
    ∃ msg, ∀ backend backend',
      test_get_proof_data_with_params [[List.replicate 20 1]] [[List.replicate 20 2]]
          [[OPTIMISM_CHAIN_ID]] [] false false backend =
        TestOutcome.assertionFailure msg ∧
      test_get_proof_data_with_params [[List.replicate 20 1]] [[List.replicate 20 2]]
          [[OPTIMISM_CHAIN_ID]] [] false false backend =
        test_get_proof_data_with_params [[List.replicate 20 1]] [[List.replicate 20 2]]
          [[OPTIMISM_CHAIN_ID]] [] false false backend' :=
  outer_shape_assert [[List.replicate 20 1]] [[List.replicate 20 2]] [[OPTIMISM_CHAIN_ID]] []
    false false (Or.inr (Or.inr (by decide)))

end Malda
